import Mathlib

/-
  Verification of the multi-agent PR-review workflow (elin-d/recipe-api).

  Shallow embedding of:
    - src/agent.py          (tools, agent builders, build_agent_workflow, startup)
    - src/context_agent.py  (ContextAgent class: same tools/agent as agent.py)
    - src/commentor_agent.py
    - src/review_posting_agent.py

  The three agents are llama_index FunctionAgent values carrying a name, a
  tool list and a can_handoff_to allow-list.  The orchestration loop itself
  (AgentWorkflow.run) lives in the external llama_index library, so the
  dispatch/handoff step relation below is modelled from the spec (section 4.5):
  an action is either a tool call, executed when the active agent holds the
  tool, or a handoff, which succeeds exactly when the target is in the active
  agent's allow-list and otherwise fails with a ProtocolViolation.
-/

/-- The shared run state of one workflow invocation: the three keys of the
`initial_state` dict in `build_agent_workflow` (src/agent.py lines 258-262). -/
structure RunState where
  gathered_contexts : String
  review_comment : String
  final_review_comment : String
deriving DecidableEq

/-- Embeds `add_context_to_state` (src/agent.py lines 58-62 and
src/context_agent.py lines 21-24): sets the `gathered_contexts` key of the
state dict to the given text, returns the tool message. -/
def add_context_to_state (s : RunState) (gathered_contexts : String) :
    RunState × String :=
  ({ s with gathered_contexts := gathered_contexts }, "Context gathered.")

/-- Embeds `save_draft_comment_to_state` (src/agent.py lines 154-158 and
src/commentor_agent.py lines 13-16): sets the `review_comment` key. -/
def save_draft_comment_to_state (s : RunState) (draft_comment : String) :
    RunState × String :=
  ({ s with review_comment := draft_comment }, "Comment drafted.")

/-- Embeds `add_final_review_to_state` (src/agent.py lines 192-196 and
src/review_posting_agent.py lines 21-24): sets the `final_review_comment`
key. -/
def add_final_review_to_state (s : RunState) (final_review : String) :
    RunState × String :=
  ({ s with final_review_comment := final_review },
    "Final review ready and need to be posted to GitHub.")

/-- A llama_index FunctionAgent as configured by the source: its name, its
tool names, and its `can_handoff_to` allow-list. -/
structure FunctionAgent where
  name : String
  tools : List String
  can_handoff_to : List String
deriving DecidableEq

/-- Embeds `build_context_agent` (src/agent.py lines 49-144; identically
`ContextAgent.build_agent`, src/context_agent.py lines 57-103). -/
def build_context_agent : FunctionAgent :=
  { name := "ContextAgent"
  , tools := ["get_pr_details", "get_file_contents", "get_commit_details",
      "add_context_to_state"]
  , can_handoff_to := ["CommentorAgent"] }

/-- Embeds `build_commentor_agent` (src/agent.py lines 146-182; identically
`CommentorAgent.build_agent`, src/commentor_agent.py lines 122-146). -/
def build_commentor_agent : FunctionAgent :=
  { name := "CommentorAgent"
  , tools := ["save_draft_comment_to_state"]
  , can_handoff_to := ["ReviewAndPostingAgent", "ContextAgent"] }

/-- Embeds `build_posting_agent` (src/agent.py lines 184-246; identically
`ReviewAndPostingAgent.build_agent`, src/review_posting_agent.py lines
179-205). -/
def build_posting_agent : FunctionAgent :=
  { name := "ReviewAndPostingAgent"
  , tools := ["post_final_review_to_github", "add_final_review_to_state"]
  , can_handoff_to := ["CommentorAgent"] }

/-- The AgentWorkflow value assembled by `build_agent_workflow`: the agent
list, the root agent name, and the initial state. -/
structure AgentWorkflow where
  agents : List FunctionAgent
  root_agent : String
  initial_state : RunState
deriving DecidableEq

/-- Embeds `build_agent_workflow` (src/agent.py lines 248-264): the three
agents, root agent `review_and_posting_agent.name`, and the initial state
with all three keys the empty string. -/
def build_agent_workflow : AgentWorkflow :=
  { agents := [build_context_agent, build_commentor_agent, build_posting_agent]
  , root_agent := build_posting_agent.name
  , initial_state :=
      { gathered_contexts := "", review_comment := "", final_review_comment := "" } }

/-- Lookup of an agent of `build_agent_workflow` by its name, as the
orchestrator dispatches handoffs by agent name. -/
def agent_named (n : String) : Option FunctionAgent :=
  if n = "ContextAgent" then some build_context_agent
  else if n = "CommentorAgent" then some build_commentor_agent
  else if n = "ReviewAndPostingAgent" then some build_posting_agent
  else none

/-- The tool names held by the agent named `n` (empty when no such agent). -/
def tool_list (n : String) : List String :=
  ((agent_named n).map FunctionAgent.tools).getD []

/-- The `can_handoff_to` allow-list of the agent named `n` (empty when no
such agent). -/
def can_handoff_list (n : String) : List String :=
  ((agent_named n).map FunctionAgent.can_handoff_to).getD []

/-- A configuration of one workflow run: the active agent, the run state, and
how many times the externally irreversible post operation has fired. -/
structure Config where
  active : String
  run_state : RunState
  postCount : Nat
deriving DecidableEq

/-- One agent decision: call a tool (with its text argument) or request a
handoff to a named agent. -/
inductive AgentAction where
  | callTool (tool : String) (arg : String)
  | handoff (target : String)
deriving DecidableEq

/-- Modelled from the spec (section 4.5 / section 7): a handoff request
naming a target outside the acting agent's allow-list is a protocol
violation. -/
inductive ProtocolViolation where
  | handoffNotAllowed (actor : String) (target : String)
deriving DecidableEq

/-- The effect of a tool call on a configuration.  The three state-writing
tools apply the embedded functions above; `post_final_review_to_github`
performs the single external write, recorded by incrementing `postCount`;
the gateway read tools leave the configuration unchanged. -/
def apply_tool (c : Config) (tool : String) (arg : String) : Config :=
  if tool = "add_context_to_state" then
    { c with run_state := (add_context_to_state c.run_state arg).1 }
  else if tool = "save_draft_comment_to_state" then
    { c with run_state := (save_draft_comment_to_state c.run_state arg).1 }
  else if tool = "add_final_review_to_state" then
    { c with run_state := (add_final_review_to_state c.run_state arg).1 }
  else if tool = "post_final_review_to_github" then
    { c with postCount := c.postCount + 1 }
  else c

/-- Modelled from the spec: one step of the orchestrator (the AgentWorkflow
run loop is in the external llama_index library).  A tool call executes when
the active agent holds the tool and is otherwise a no-op for that agent; a
handoff transfers control exactly when the target is in the acting agent's
static allow-list and otherwise fails with `ProtocolViolation`. -/
def step (c : Config) (a : AgentAction) : Except ProtocolViolation Config :=
  match a with
  | AgentAction.callTool t arg =>
      if t ∈ tool_list c.active then Except.ok (apply_tool c t arg)
      else Except.ok c
  | AgentAction.handoff tgt =>
      if tgt ∈ can_handoff_list c.active then
        Except.ok { c with active := tgt }
      else Except.error (ProtocolViolation.handoffNotAllowed c.active tgt)

/-- Run a sequence of agent decisions from a configuration, stopping at the
first protocol violation. -/
def run_actions (c : Config) : List AgentAction → Except ProtocolViolation Config
  | [] => Except.ok c
  | a :: rest =>
      match step c a with
      | Except.ok c₂ => run_actions c₂ rest
      | Except.error v => Except.error v

/-- The configuration at workflow start: control at the root agent of
`build_agent_workflow`, the initial run state, and no post yet. -/
def initial_config : Config :=
  { active := build_agent_workflow.root_agent
  , run_state := build_agent_workflow.initial_state
  , postCount := 0 }

/-- The environment variables the source reads (os.getenv returns the string
value or None; an exported empty string is also possible). -/
structure Env where
  GITHUB_TOKEN : Option String
  REPOSITORY : Option String
  PR_NUMBER : Option String
deriving DecidableEq

/-- Python truthiness of an optional string: `not x` holds exactly when the
variable is absent (None) or the empty string. -/
def py_falsy_str (x : Option String) : Bool :=
  match x with
  | none => true
  | some s => s = ""

/-- The configuration error the source can raise at startup. -/
inductive ConfigError where
  | missing_github_token
deriving DecidableEq

/-- Embeds the startup sequence of src/agent.py lines 38-47 (identical checks
in ContextAgent.__init__ and ReviewAndPostingAgent.__init__): if
`GITHUB_TOKEN` is falsy, raise ValueError; otherwise proceed, handing
`REPOSITORY` to the external GitHub client (`git.get_repo`) unvalidated.  On
success the result is the value passed to `git.get_repo`. -/
def startup_check (env : Env) : Except ConfigError (Option String) :=
  if py_falsy_str env.GITHUB_TOKEN then
    Except.error ConfigError.missing_github_token
  else Except.ok env.REPOSITORY

/-- The program start: the startup checks run at module import, before
`build_agent_workflow` constructs any agent; when they fail no workflow is
ever built. -/
def run_program (env : Env) : Except ConfigError AgentWorkflow :=
  match startup_check env with
  | Except.error e => Except.error e
  | Except.ok _ => Except.ok build_agent_workflow

/-- A commit object as used by `get_pr_details`: only its `sha` is read. -/
structure Commit where
  sha : String
deriving DecidableEq

/-- The pull request object returned by `repo.get_pull`, restricted to the
attributes the source reads.  `body` is `Option String` since the hosting
API reports an absent body as None; `get_commits` is the ordered commit
sequence of `pr.get_commits()`. -/
structure PullRequest where
  user_login : String
  title : String
  body : Option String
  diff_url : String
  state : String
  head_sha : String
  get_commits : List Commit
deriving DecidableEq

/-- The snapshot dict built by `get_pr_details`. -/
structure PRSnapshot where
  author : String
  title : String
  body : String
  diff_url : String
  state : String
  head_sha : String
  commit_SHAs : List String
deriving DecidableEq

/-- Python `x or d` on an optional string: yields `d` exactly when `x` is
falsy (None or the empty string), otherwise the string itself. -/
def py_or_str (x : Option String) (d : String) : String :=
  match x with
  | none => d
  | some s => if s = "" then d else s

/-- Embeds `get_pr_details` (src/agent.py lines 64-77 and
src/context_agent.py lines 26-37): author, title, `body or <Empty body>`,
diff_url, state, head_sha, and the ordered commit SHA list. -/
def get_pr_details (pr : PullRequest) : PRSnapshot :=
  { author := pr.user_login
  , title := pr.title
  , body := py_or_str pr.body "<Empty body>"
  , diff_url := pr.diff_url
  , state := pr.state
  , head_sha := pr.head_sha
  , commit_SHAs := pr.get_commits.map Commit.sha }

/-- The review object returned by the external `pr.create_review` call:
`id`, `state`, and `html_url` (absent when the attribute is missing,
mirroring `getattr(review, "html_url", None)`). -/
structure ReviewObj where
  id : Nat
  state : String
  html_url : Option String
deriving DecidableEq

/-- The dict returned by `post_final_review_to_github` on success. -/
structure PostedReviewResult where
  review_id : Nat
  state : String
  html_url : Option String
deriving DecidableEq

/-- The external repository client as used by the post operation:
`get_pull` fetches a pull request by number, and `create_review` posts a
review (pull request number, commit sha, body text) returning the created
review object. -/
structure Repo where
  get_pull : Nat → PullRequest
  create_review : Nat → String → String → ReviewObj

/-- The numeric value of a decimal digit character, if it is one. -/
def digit? (c : Char) : Option Nat :=
  if c = '0' then some 0
  else if c = '1' then some 1
  else if c = '2' then some 2
  else if c = '3' then some 3
  else if c = '4' then some 4
  else if c = '5' then some 5
  else if c = '6' then some 6
  else if c = '7' then some 7
  else if c = '8' then some 8
  else if c = '9' then some 9
  else none

/-- Accumulate decimal digits; fails on any non-digit character. -/
def py_int_aux : List Char → Nat → Option Nat
  | [], acc => some acc
  | c :: cs, acc =>
      match digit? c with
      | none => none
      | some d => py_int_aux cs (acc * 10 + d)

/-- Python `int()` on a string holding an unsigned decimal numeral: its
value, or failure (ValueError) when empty or holding a non-digit. -/
def py_int (s : String) : Option Nat :=
  match s.data with
  | [] => none
  | cs => py_int_aux cs 0

/-- Python `int()` applied to the optional `PR_NUMBER` string: None when the
variable is absent (TypeError) or not a numeral (ValueError). -/
def parse_pr_number (s : Option String) : Option Nat :=
  s.bind py_int

/-- Embeds `post_final_review_to_github` (src/agent.py lines 198-215 and
src/review_posting_agent.py lines 173-177).  The function receives only the
review body text; the target pull request is `int(os.getenv("PR_NUMBER"))`.
It fetches that PR, takes the commit at `pr.head.sha`, and calls
`create_review(commit, body, event="COMMENT")`.  The result pairs the pull
request number the review was posted to (the observable external effect's
target) with the returned dict `review_id` / `state` / `html_url`. -/
def post_final_review_to_github (env : Env) (repo : Repo)
    (final_review_comment : String) : Option (Nat × PostedReviewResult) :=
  match parse_pr_number env.PR_NUMBER with
  | none => none
  | some prn =>
      let pr := repo.get_pull prn
      let review := repo.create_review prn pr.head_sha final_review_comment
      some (prn,
        { review_id := review.id
        , state := review.state
        , html_url := review.html_url })

/-- A concrete pull request whose body is absent (the hosting API reports
None). -/
def pr_no_body : PullRequest :=
  { user_login := "alice"
  , title := "Fix typo"
  , body := none
  , diff_url := "https://example.test/pull/42.diff"
  , state := "open"
  , head_sha := "abc123"
  , get_commits := [{ sha := "abc123" }] }

/-- A concrete repository client stub: every `create_review` call succeeds
with review id 1 in state COMMENTED and no html_url attribute. -/
def stub_repo : Repo :=
  { get_pull := fun _ =>
      { user_login := "alice"
      , title := "Fix typo"
      , body := some "A small typo fix."
      , diff_url := "https://example.test/pull/7.diff"
      , state := "open"
      , head_sha := "abc123"
      , get_commits := [{ sha := "abc123" }] }
  , create_review := fun _ _ _ =>
      { id := 1, state := "COMMENTED", html_url := none } }

/-- Only the agent named ReviewAndPostingAgent holds the post tool. -/
theorem mem_post_tool (n : String)
    (h : "post_final_review_to_github" ∈ tool_list n) :
    n = "ReviewAndPostingAgent" := by
  by_cases h1 : n = "ContextAgent"
  · subst h1; exact absurd h (by decide)
  · by_cases h2 : n = "CommentorAgent"
    · subst h2; exact absurd h (by decide)
    · by_cases h3 : n = "ReviewAndPostingAgent"
      · exact h3
      · simp [tool_list, agent_named, h1, h2, h3] at h

/-- Any tool other than the post tool leaves the post counter unchanged. -/
theorem apply_tool_postCount (c : Config) (t arg : String)
    (h : t ≠ "post_final_review_to_github") :
    (apply_tool c t arg).postCount = c.postCount := by
  by_cases h1 : t = "add_context_to_state" <;>
    by_cases h2 : t = "save_draft_comment_to_state" <;>
      by_cases h3 : t = "add_final_review_to_state" <;>
        simp [apply_tool, h1, h2, h3, h]

/-- Claim C1 (amended): the Repository Gateway post operation can fire only
while the ReviewAndPostingAgent holds control — a step that changes the post
counter has the posting agent active.  The code enforces no at-most-once
bound on the number of such invocations (see the counterexample). -/
theorem post_only_while_posting_agent_active (c : Config) (a : AgentAction)
    (c₂ : Config) (hstep : step c a = Except.ok c₂)
    (hne : c₂.postCount ≠ c.postCount) :
    c.active = "ReviewAndPostingAgent" := by
  cases a with
  | handoff tgt =>
      by_cases h : tgt ∈ can_handoff_list c.active
      · simp [step, h] at hstep
        rw [← hstep] at hne
        exact absurd rfl hne
      · simp [step, h] at hstep
  | callTool t arg =>
      by_cases h : t ∈ tool_list c.active
      · simp [step, h] at hstep
        by_cases hp : t = "post_final_review_to_github"
        · subst hp
          exact mem_post_tool c.active h
        · rw [← hstep] at hne
          exact absurd (apply_tool_postCount c t arg hp) hne
      · simp [step, h] at hstep
        rw [← hstep] at hne
        exact absurd rfl hne

/-- Claim C1 witness: a concrete step from the initial configuration that
changes the post counter, with the conclusion drawn by the theorem. -/
theorem post_only_while_posting_agent_active_witness :
    step initial_config
        (AgentAction.callTool "post_final_review_to_github" "the review") =
      Except.ok
        { active := "ReviewAndPostingAgent"
        , run_state :=
            { gathered_contexts := "", review_comment := "", final_review_comment := "" }
        , postCount := 1 } ∧
    initial_config.active = "ReviewAndPostingAgent" :=
  ⟨rfl, post_only_while_posting_agent_active initial_config
      (AgentAction.callTool "post_final_review_to_github" "the review")
      { active := "ReviewAndPostingAgent"
      , run_state :=
          { gathered_contexts := "", review_comment := "", final_review_comment := "" }
      , postCount := 1 } rfl (by decide)⟩

/-- Claim C1 counterexample: the claim as stated is false — there is a
sequence of agent decisions (the posting agent, re-entered on the same turn,
calls the post tool twice) under which `post_final_review_to_github` fires
twice in one workflow invocation; nothing in the source prevents it. -/
theorem multiple_posts_possible :
    run_actions initial_config
        [AgentAction.callTool "post_final_review_to_github" "first post",
         AgentAction.callTool "post_final_review_to_github" "second post"] =
      Except.ok
        { active := "ReviewAndPostingAgent"
        , run_state :=
            { gathered_contexts := "", review_comment := "", final_review_comment := "" }
        , postCount := 2 } ∧ ¬ (2 ≤ 1) :=
  ⟨rfl, by decide⟩

/-- Claim C2: the handoff graph is exactly ContextAgent to CommentorAgent,
CommentorAgent to ReviewAndPostingAgent or ContextAgent, and
ReviewAndPostingAgent to CommentorAgent; in particular any handoff request
from ReviewAndPostingAgent to ContextAgent, or from ContextAgent to
ReviewAndPostingAgent, fails as a protocol violation in every
configuration. -/
theorem handoff_graph_exact :
    build_context_agent.can_handoff_to = ["CommentorAgent"] ∧
    build_commentor_agent.can_handoff_to = ["ReviewAndPostingAgent", "ContextAgent"] ∧
    build_posting_agent.can_handoff_to = ["CommentorAgent"] ∧
    (∀ (s : RunState) (k : Nat),
      step { active := "ReviewAndPostingAgent", run_state := s, postCount := k }
          (AgentAction.handoff "ContextAgent") =
        Except.error
          (ProtocolViolation.handoffNotAllowed "ReviewAndPostingAgent" "ContextAgent")) ∧
    (∀ (s : RunState) (k : Nat),
      step { active := "ContextAgent", run_state := s, postCount := k }
          (AgentAction.handoff "ReviewAndPostingAgent") =
        Except.error
          (ProtocolViolation.handoffNotAllowed "ContextAgent" "ReviewAndPostingAgent")) :=
  ⟨rfl, rfl, rfl, fun _ _ => rfl, fun _ _ => rfl⟩

/-- Claim C3: a handoff request naming a target outside the acting agent's
static allow-list fails with a ProtocolViolation, and the run stops there —
none of the remaining actions (in particular none of the named target's)
ever executes. -/
theorem disallowed_handoff_fails (c : Config) (tgt : String)
    (rest : List AgentAction) (h : tgt ∉ can_handoff_list c.active) :
    run_actions c (AgentAction.handoff tgt :: rest) =
      Except.error (ProtocolViolation.handoffNotAllowed c.active tgt) := by
  simp [run_actions, step, h]

/-- Claim C3 witness: ContextAgent requesting a handoff directly to
ReviewAndPostingAgent (not in its allow-list) fails, and the queued action
of the target never runs. -/
theorem disallowed_handoff_fails_witness :
    ("ReviewAndPostingAgent" ∉ can_handoff_list "ContextAgent") ∧
    run_actions
        { active := "ContextAgent"
        , run_state :=
            { gathered_contexts := "ctx", review_comment := "", final_review_comment := "" }
        , postCount := 0 }
        [AgentAction.handoff "ReviewAndPostingAgent",
         AgentAction.callTool "add_final_review_to_state" "never runs"] =
      Except.error
        (ProtocolViolation.handoffNotAllowed "ContextAgent" "ReviewAndPostingAgent") :=
  ⟨by decide, disallowed_handoff_fails _ _ _ (by decide)⟩

/-- Claim C4: every write fully overwrites the field; writing a run-state
field twice leaves exactly the second value, for all prior states and all
pairs of values (shown for all three fields). -/
theorem state_writes_last_write_wins (s : RunState) (v1 v2 : String) :
    (add_context_to_state (add_context_to_state s v1).1 v2).1 =
      { s with gathered_contexts := v2 } ∧
    (add_context_to_state (add_context_to_state s v1).1 v2).1.gathered_contexts = v2 ∧
    (save_draft_comment_to_state (save_draft_comment_to_state s v1).1 v2).1 =
      { s with review_comment := v2 } ∧
    (add_final_review_to_state (add_final_review_to_state s v1).1 v2).1 =
      { s with final_review_comment := v2 } :=
  ⟨rfl, rfl, rfl, rfl⟩

/-- Claim C5: evaluation at the failing input.  The post operation accepts no
pull-request number — its only input is the body text — and posts to
`int(os.getenv("PR_NUMBER"))`: with PR_NUMBER set to 7 the review lands on
PR 7 whatever PR the caller intended, and with PR_NUMBER absent the call
raises (no result) instead of posting.  On success the returned record does
carry review_id, state and html_url (possibly absent) as the claim says. -/
theorem post_targets_env_pr_number :
    post_final_review_to_github
        { GITHUB_TOKEN := some "ghp-abc"
        , REPOSITORY := some "elin-d/recipe-api"
        , PR_NUMBER := some "7" }
        stub_repo "Great work!" =
      some (7, { review_id := 1, state := "COMMENTED", html_url := none }) ∧
    post_final_review_to_github
        { GITHUB_TOKEN := some "ghp-abc"
        , REPOSITORY := some "elin-d/recipe-api"
        , PR_NUMBER := none }
        stub_repo "Great work!" = none :=
  ⟨rfl, rfl⟩

/-- Claim C6 (amended): only the credential is checked at startup — a falsy
GITHUB_TOKEN raises the fatal error before any agent is built, and the
workflow never starts; the repository identifier is never checked (the
startup result does not depend on it being present). -/
theorem startup_checks_only_github_token (env : Env) :
    (startup_check env = Except.error ConfigError.missing_github_token ↔
      py_falsy_str env.GITHUB_TOKEN = true) ∧
    (py_falsy_str env.GITHUB_TOKEN = true →
      run_program env = Except.error ConfigError.missing_github_token) := by
  constructor
  · constructor
    · intro h
      by_cases hf : py_falsy_str env.GITHUB_TOKEN = true
      · exact hf
      · simp [startup_check, hf] at h
    · intro hf
      simp [startup_check, hf]
  · intro hf
    simp [run_program, startup_check, hf]

/-- Claim C6 witness: with GITHUB_TOKEN absent the program fails at startup
and no workflow is ever built, by the theorem at a concrete environment. -/
theorem startup_checks_only_github_token_witness :
    py_falsy_str
        (Env.mk none (some "elin-d/recipe-api") (some "5")).GITHUB_TOKEN = true ∧
    run_program
        { GITHUB_TOKEN := none
        , REPOSITORY := some "elin-d/recipe-api"
        , PR_NUMBER := some "5" } =
      Except.error ConfigError.missing_github_token :=
  ⟨rfl, (startup_checks_only_github_token
      { GITHUB_TOKEN := none
      , REPOSITORY := some "elin-d/recipe-api"
      , PR_NUMBER := some "5" }).2 rfl⟩

/-- Claim C6 counterexample: the claim as stated is false — with a valid
token but an absent repository identifier, startup raises no configuration
error (the missing value is handed to the external client unvalidated) and
the workflow is built and started anyway. -/
theorem startup_succeeds_without_repository :
    startup_check
        { GITHUB_TOKEN := some "ghp-abc", REPOSITORY := none, PR_NUMBER := some "5" } =
      Except.ok none ∧
    run_program
        { GITHUB_TOKEN := some "ghp-abc", REPOSITORY := none, PR_NUMBER := some "5" } =
      Except.ok build_agent_workflow :=
  ⟨rfl, rfl⟩

/-- Claim C7: a pull request with absent body yields a snapshot carrying the
literal sentinel in its body field, while every other snapshot field is
taken from the pull request, with the commit SHAs in order. -/
theorem missing_body_sentinel (pr : PullRequest) (h : pr.body = none) :
    (get_pr_details pr).body = "<Empty body>" ∧
    (get_pr_details pr).author = pr.user_login ∧
    (get_pr_details pr).title = pr.title ∧
    (get_pr_details pr).diff_url = pr.diff_url ∧
    (get_pr_details pr).state = pr.state ∧
    (get_pr_details pr).head_sha = pr.head_sha ∧
    (get_pr_details pr).commit_SHAs = pr.get_commits.map Commit.sha := by
  refine ⟨?_, rfl, rfl, rfl, rfl, rfl, rfl⟩
  simp [get_pr_details, py_or_str, h]

/-- Claim C7 witness: the theorem applied to a concrete bodyless pull
request. -/
theorem missing_body_sentinel_witness :
    pr_no_body.body = none ∧
    ((get_pr_details pr_no_body).body = "<Empty body>" ∧
      (get_pr_details pr_no_body).author = pr_no_body.user_login ∧
      (get_pr_details pr_no_body).title = pr_no_body.title ∧
      (get_pr_details pr_no_body).diff_url = pr_no_body.diff_url ∧
      (get_pr_details pr_no_body).state = pr_no_body.state ∧
      (get_pr_details pr_no_body).head_sha = pr_no_body.head_sha ∧
      (get_pr_details pr_no_body).commit_SHAs = pr_no_body.get_commits.map Commit.sha) :=
  ⟨rfl, missing_body_sentinel pr_no_body rfl⟩

/-- Claim C8: the workflow starts with control at the root agent
ReviewAndPostingAgent and a fresh run state whose three fields are all the
empty string. -/
theorem workflow_root_and_fresh_state :
    build_agent_workflow.root_agent = "ReviewAndPostingAgent" ∧
    build_agent_workflow.initial_state =
      { gathered_contexts := "", review_comment := "", final_review_comment := "" } ∧
    initial_config =
      { active := "ReviewAndPostingAgent"
      , run_state :=
          { gathered_contexts := "", review_comment := "", final_review_comment := "" }
      , postCount := 0 } :=
  ⟨rfl, rfl, rfl⟩

/-- Claim C9: each state-writing tool mutates exactly one run-state field
and leaves the other two unchanged, for every prior state and input text. -/
theorem state_tools_write_exactly_one_field (s : RunState) (x : String) :
    ((add_context_to_state s x).1.gathered_contexts = x ∧
      (add_context_to_state s x).1.review_comment = s.review_comment ∧
      (add_context_to_state s x).1.final_review_comment = s.final_review_comment) ∧
    ((save_draft_comment_to_state s x).1.review_comment = x ∧
      (save_draft_comment_to_state s x).1.gathered_contexts = s.gathered_contexts ∧
      (save_draft_comment_to_state s x).1.final_review_comment = s.final_review_comment) ∧
    ((add_final_review_to_state s x).1.final_review_comment = x ∧
      (add_final_review_to_state s x).1.gathered_contexts = s.gathered_contexts ∧
      (add_final_review_to_state s x).1.review_comment = s.review_comment) :=
  ⟨⟨rfl, rfl, rfl⟩, ⟨rfl, rfl, rfl⟩, ⟨rfl, rfl, rfl⟩⟩

/-- Claim C10: the body normalization covers every falsy value — a pull
request whose body is the empty string produces exactly the same snapshot as
one whose body is absent, and its body field is the sentinel. -/
theorem empty_body_indistinguishable_from_absent (pr : PullRequest) :
    get_pr_details { pr with body := some "" } =
      get_pr_details { pr with body := none } ∧
    (get_pr_details { pr with body := some "" }).body = "<Empty body>" :=
  ⟨rfl, rfl⟩
